import Mathlib

/-! simple-go-api: the client profile endpoint

A shallow embedding of `database.go` and `handlers.go`.

* The package-level `database` map is threaded explicitly: every handler takes the
  map before the request and returns the map after it together with the response
  that the `http.ResponseWriter` has received.
* A request is reduced to what the handlers read from it: the method, the value of
  `r.URL.Query().Get("clientId")` (the empty string when the parameter is missing)
  and the raw body.
* `encoding/json` is a library, not code of this repository.  Decoding the body
  into a `ClientProfile` is a parameter `decode` of the handlers that read the
  body (`none` stands for `Decode` returning an error).  Encoding is kept at the
  level of the JSON document that is written: an object given by its ordered list
  of members.  Writing to the `ResponseWriter` is taken not to fail, so the
  `Failed to encode response` branches are not entered (a struct of four strings
  always marshals).
-/

namespace SimpleGoApi

/-! ## database.go -/

/-- The record type of `database.go`; all four fields are exported and untagged. -/
structure ClientProfile where
  Email : String
  Id : String
  Name : String
  Token : String
deriving DecidableEq, Repr

/-- The Go zero value `ClientProfile{}`. -/
def ClientProfile.zero : ClientProfile := ⟨"", "", "", ""⟩

/-- A Go `map[string]ClientProfile`: each key is either absent or bound to a record. -/
abbrev Store := String → Option ClientProfile

/-- The two-result index expression `v, ok := m[k]`: the zero value and `false`
when the key is absent. -/
def Store.index (m : Store) (k : String) : ClientProfile × Bool :=
  match m k with
  | some v => (v, true)
  | none => (ClientProfile.zero, false)

/-- The assignment `m[k] = v`. -/
def Store.set (m : Store) (k : String) (v : ClientProfile) : Store :=
  fun j => if j = k then some v else m j

/-- The builtin `delete(m, k)`. -/
def Store.delete (m : Store) (k : String) : Store :=
  fun j => if j = k then none else m j

/-- The initial value of the package variable `database`. -/
def database : Store := fun k =>
  if k = "user1" then some ⟨"email1@gmail.com", "user1", "User One", "123"⟩
  else if k = "user2" then some ⟨"email2@gmail.com", "user2", "User Two", "456"⟩
  else none

/-! ## net/http and encoding/json, as far as the handlers use them -/

abbrev StatusOK : Nat := 200
abbrev StatusNoContent : Nat := 204
abbrev StatusBadRequest : Nat := 400
abbrev StatusForbidden : Nat := 403
abbrev StatusNotFound : Nat := 404
abbrev StatusMethodNotAllowed : Nat := 405

abbrev MethodGet : String := "GET"
abbrev MethodPatch : String := "PATCH"
abbrev MethodDelete : String := "DELETE"

/-- What a handler reads from `*http.Request`. -/
structure Request where
  Method : String
  clientId : String
  Body : String
deriving DecidableEq, Repr

/-- What has been written as the response body: nothing, a plain text, or a JSON
object given by its members in the order they are written. -/
inductive Payload where
  | empty : Payload
  | text (s : String) : Payload
  | json (members : List (String × String)) : Payload
deriving DecidableEq, Repr

/-- What the `http.ResponseWriter` holds when the handler returns. -/
structure Response where
  Code : Nat
  Header : List (String × String)
  Body : Payload
deriving DecidableEq, Repr

/-- The call `w.Header().Get(key)` on the finished response (`""` when unset). -/
def Response.headerGet (w : Response) (key : String) : String :=
  match w.Header.find? (fun kv => kv.1 = key) with
  | some kv => kv.2
  | none => ""

/-- The library call `http.Error(w, msg, code)` on a fresh writer: two headers, the status, and
the message followed by a newline. -/
def httpError (msg : String) (code : Nat) : Response :=
  ⟨code,
   [("Content-Type", "text/plain; charset=utf-8"), ("X-Content-Type-Options", "nosniff")],
   Payload.text (msg ++ "\n")⟩

/-- The JSON object that `json.NewEncoder(w).Encode(v)` writes for a `ClientProfile`:
the struct has no field tags, so every exported field is a member, under its Go
name and in declaration order, whether or not it is empty. -/
def encode (v : ClientProfile) : List (String × String) :=
  [("Email", v.Email), ("Id", v.Id), ("Name", v.Name), ("Token", v.Token)]

/-- The result of `json.NewDecoder(r.Body).Decode(&payloadData)`: the decoded record,
or `none` when `Decode` returns an error. -/
abbrev Decoder := String → Option ClientProfile

/-! ## handlers.go -/

/-- The handler `GetClientProfile` of `handlers.go`. -/
def GetClientProfile (db : Store) (r : Request) : Store × Response :=
  let clientid := r.clientId
  let (clientProfile, ok) := db.index clientid
  if !ok || clientProfile = ClientProfile.zero then
    (db, httpError "Forbidden" StatusForbidden)
  else
    let response : ClientProfile := ⟨clientProfile.Email, clientProfile.Id, clientProfile.Name, ""⟩
    (db, ⟨StatusOK, [("Content-Type", "application/json")], Payload.json (encode response)⟩)

/-- The handler `UpdateClientProfile` of `handlers.go`. -/
def UpdateClientProfile (decode : Decoder) (db : Store) (r : Request) : Store × Response :=
  let clientId := r.clientId
  if clientId = "" then
    (db, httpError "clientId is required" StatusBadRequest)
  else
    let (clientProfile, ok) := db.index clientId
    if !ok then
      (db, httpError "Client not found" StatusNotFound)
    else
      match decode r.Body with
      | none => (db, httpError "Invalid JSON" StatusBadRequest)
      | some payloadData =>
        let clientProfile :=
          if payloadData.Name ≠ "" then { clientProfile with Name := payloadData.Name }
          else clientProfile
        let clientProfile :=
          if payloadData.Email ≠ "" then { clientProfile with Email := payloadData.Email }
          else clientProfile
        (db.set clientId clientProfile,
         ⟨StatusOK, [("Content-Type", "application/json")], Payload.json (encode clientProfile)⟩)

/-- The handler `DeleteClientProfile` of `handlers.go`. -/
def DeleteClientProfile (db : Store) (r : Request) : Store × Response :=
  let clientId := r.clientId
  if clientId = "" then
    (db, httpError "clientId is required" StatusBadRequest)
  else
    let (_, ok) := db.index clientId
    if !ok then
      (db, httpError "Client not found" StatusNotFound)
    else
      (db.delete clientId, ⟨StatusNoContent, [], Payload.empty⟩)

/-- The entry point `handleClientProfile` of `handlers.go`. -/
def handleClientProfile (decode : Decoder) (db : Store) (r : Request) : Store × Response :=
  if r.Method = MethodGet then GetClientProfile db r
  else if r.Method = MethodPatch then UpdateClientProfile decode db r
  else if r.Method = MethodDelete then DeleteClientProfile db r
  else (db, httpError "Method not allowed" StatusMethodNotAllowed)

/-! ## Test fixtures -/

/-- The body of `TestUpdateClientProfile_Success`, members in the order the spec writes them. -/
def bodyNameEmail : String :=
  "\x7b\"name\":\"Updated User\",\"email\":\"updated@example.com\"\x7d"

/-- The body of `TestUpdateClientProfile_TokenNotModified`. -/
def bodyNameToken : String :=
  "\x7b\"name\":\"Updated Name\",\"token\":\"should-not-change\"\x7d"

/-- A decoder that knows the bodies of the test file and rejects every other body. -/
def fixtureDecode : Decoder := fun b =>
  if b = bodyNameEmail then some ⟨"updated@example.com", "", "Updated User", ""⟩
  else if b = bodyNameToken then some ⟨"", "", "Updated Name", "should-not-change"⟩
  else none

/-! ## Relations between stores used by the claims -/

/-- Two stores have the same keys, and under each key their records agree on `Email`,
`Id` and `Name`; the `Token` values are free to differ. -/
def AgreeUpToToken (s1 s2 : Store) : Prop :=
  ∀ k, match s1 k, s2 k with
    | none, none => True
    | some a, some b => a.Email = b.Email ∧ a.Id = b.Id ∧ a.Name = b.Name
    | _, _ => False

/-- The record under `k` is zero-valued in both stores or in neither. -/
def SameZeroAt (s1 s2 : Store) (k : String) : Prop :=
  s1 k = some ClientProfile.zero ↔ s2 k = some ClientProfile.zero

instance (s1 s2 : Store) (k : String) : Decidable (SameZeroAt s1 s2 k) :=
  inferInstanceAs (Decidable (s1 k = some ClientProfile.zero ↔ s2 k = some ClientProfile.zero))

/-- A store whose only record, under the key `ghost`, has nothing but a token. -/
def storeTokenOnly : Store := fun k =>
  if k = "ghost" then some ⟨"", "", "", "secret"⟩ else none

/-- A store whose only record, under the key `ghost`, is the zero value. -/
def storeZeroRecord : Store := fun k =>
  if k = "ghost" then some ⟨"", "", "", ""⟩ else none

/-! ## Sequences of requests and store invariants -/

/-- The store after the requests `rs` have been handled one after the other, starting
from the store `db`; the package variable is the only state that a request leaves behind. -/
def serve (decode : Decoder) (db : Store) (rs : List Request) : Store :=
  rs.foldl (fun s r => (handleClientProfile decode s r).1) db

/-- The record keyed by `k` has `Id` equal to `k`. -/
def KeyIdInv (db : Store) : Prop :=
  ∀ (k : String) (p : ClientProfile), db k = some p → p.Id = k

/-- Every key of `s2` is a key of `s1`. -/
def KeysWithin (s2 s1 : Store) : Prop :=
  ∀ k : String, s2 k ≠ none → s1 k ≠ none

/-- Every stored record has a non-empty `Id`. -/
def IdsNonEmpty (db : Store) : Prop :=
  ∀ (k : String) (p : ClientProfile), db k = some p → p.Id ≠ ""

/-- Four requests in a row: a PATCH and a GET of `user1`, a DELETE of `user2` and a POST. -/
def sampleRequests : List Request :=
  [⟨"PATCH", "user1", bodyNameEmail⟩, ⟨"GET", "user1", ""⟩, ⟨"DELETE", "user2", ""⟩,
   ⟨"POST", "user1", bodyNameToken⟩]

/-! ## Lemmas on the map operations -/

theorem Store.index_of_some {m : Store} {k : String} {v : ClientProfile} (h : m k = some v) :
    m.index k = (v, true) := by
  simp [Store.index, h]

theorem Store.index_of_none {m : Store} {k : String} (h : m k = none) :
    m.index k = (ClientProfile.zero, false) := by
  simp [Store.index, h]

theorem Store.set_same (m : Store) (k : String) (v : ClientProfile) : m.set k v k = some v := by
  simp [Store.set]

theorem Store.delete_same (m : Store) (k : String) : m.delete k k = none := by
  simp [Store.delete]

/-! ## Claims -/

/-- C1. PATCH merge policy: when the non-empty `clientId` is a key of the store with record
`old` and the body decodes to `P`, the record stored under `clientId` afterwards has
`Name` and `Email` taken from `P` where `P` has them non-empty and from `old` otherwise,
and `Id` and `Token` taken from `old`, whatever `P.Id` and `P.Token` are. -/
theorem C1_patch_merge_policy (decode : Decoder) (db : Store) (r : Request)
    (old P : ClientProfile) (hid : r.clientId ≠ "") (hold : db r.clientId = some old)
    (hP : decode r.Body = some P) :
    (UpdateClientProfile decode db r).1 r.clientId =
      some ⟨if P.Email ≠ "" then P.Email else old.Email, old.Id,
            if P.Name ≠ "" then P.Name else old.Name, old.Token⟩ := by
  simp only [UpdateClientProfile, if_neg hid, Store.index_of_some hold, hP]
  simp only [Bool.not_true, Bool.false_eq_true, if_false, Store.set_same]
  by_cases hn : P.Name = "" <;> by_cases he : P.Email = "" <;> simp [hn, he]

/-- C1 at the request of `TestUpdateClientProfile_TokenNotModified` on the seed store:
the name is replaced, the email, id and token are kept. -/
theorem C1_patch_merge_policy_witness :
    (UpdateClientProfile fixtureDecode database ⟨"PATCH", "user1", bodyNameToken⟩).1 "user1" =
      some ⟨"email1@gmail.com", "user1", "Updated Name", "123"⟩ :=
  C1_patch_merge_policy fixtureDecode database ⟨"PATCH", "user1", bodyNameToken⟩
    ⟨"email1@gmail.com", "user1", "User One", "123"⟩
    ⟨"", "", "Updated Name", "should-not-change"⟩ (by decide) (by decide) (by decide)

/-- C2. GET projection: when the record stored under `clientId` is present and not
zero-valued, the response is 200 and its body is the object with `Email`, `Id` and `Name`
of the stored record and with `Token` the empty string, whatever the stored token is. -/
theorem C2_get_projection (db : Store) (r : Request) (p : ClientProfile)
    (hp : db r.clientId = some p) (hz : p ≠ ClientProfile.zero) :
    (GetClientProfile db r).2.Code = 200 ∧
    (GetClientProfile db r).2.Body =
      Payload.json [("Email", p.Email), ("Id", p.Id), ("Name", p.Name), ("Token", "")] := by
  simp [GetClientProfile, Store.index_of_some hp, hz, encode]

/-- C2 at `clientId=user1` on the seed store: the stored token `123` is not in the body. -/
theorem C2_get_projection_witness :
    (GetClientProfile database ⟨"GET", "user1", ""⟩).2.Code = 200 ∧
    (GetClientProfile database ⟨"GET", "user1", ""⟩).2.Body =
      Payload.json [("Email", "email1@gmail.com"), ("Id", "user1"), ("Name", "User One"),
        ("Token", "")] :=
  C2_get_projection database ⟨"GET", "user1", ""⟩ ⟨"email1@gmail.com", "user1", "User One", "123"⟩
    (by decide) (by decide)

/-- C3, as stated, fails: two stores with the same single key `ghost` and records that
agree on `Email`, `Id` and `Name` (all empty) and differ in `Token` only are answered
differently, 200 where the token is set and 403 where the whole record is zero-valued. -/
theorem C3_token_two_run_counterexample :
    AgreeUpToToken storeTokenOnly storeZeroRecord ∧
    (GetClientProfile storeTokenOnly ⟨"GET", "ghost", ""⟩).2.Code = 200 ∧
    (GetClientProfile storeZeroRecord ⟨"GET", "ghost", ""⟩).2.Code = 403 ∧
    (GetClientProfile storeTokenOnly ⟨"GET", "ghost", ""⟩).2.Body ≠
      (GetClientProfile storeZeroRecord ⟨"GET", "ghost", ""⟩).2.Body := by
  refine ⟨?_, by decide, by decide, by decide⟩
  intro k
  by_cases hk : k = "ghost" <;> simp [storeTokenOnly, storeZeroRecord, hk]

/-- C3, amended. For two stores with the same keys whose records agree on `Email`, `Id` and
`Name`, and in which the record under `clientId` is zero-valued in both or in neither,
`GetClientProfile` writes the same response (status, headers and body) on both. -/
theorem C3_token_two_run (s1 s2 : Store) (r : Request)
    (hagree : AgreeUpToToken s1 s2) (hzero : SameZeroAt s1 s2 r.clientId) :
    (GetClientProfile s1 r).2 = (GetClientProfile s2 r).2 := by
  have hk := hagree r.clientId
  unfold SameZeroAt at hzero
  cases h1 : s1 r.clientId with
  | none =>
    cases h2 : s2 r.clientId with
    | none => simp [GetClientProfile, Store.index_of_none h1, Store.index_of_none h2]
    | some b => simp [h1, h2] at hk
  | some a =>
    cases h2 : s2 r.clientId with
    | none => simp [h1, h2] at hk
    | some b =>
      simp only [h1, h2] at hk
      obtain ⟨he, hi, hn⟩ := hk
      simp only [h1, h2, Option.some.injEq] at hzero
      by_cases ha : a = ClientProfile.zero
      · have hb : b = ClientProfile.zero := hzero.mp ha
        simp [GetClientProfile, Store.index_of_some h1, Store.index_of_some h2, ha, hb]
      · have hb : b ≠ ClientProfile.zero := fun hb => ha (hzero.mpr hb)
        simp [GetClientProfile, Store.index_of_some h1, Store.index_of_some h2, ha, hb, he, hi,
          hn]

/-- C3 amended, at `clientId=user1` on the seed store and on the seed store with the token
of `user1` replaced. -/
theorem C3_token_two_run_witness :
    (GetClientProfile database ⟨"GET", "user1", ""⟩).2 =
      (GetClientProfile
        (database.set "user1" ⟨"email1@gmail.com", "user1", "User One", "rotated"⟩)
        ⟨"GET", "user1", ""⟩).2 :=
  C3_token_two_run database
    (database.set "user1" ⟨"email1@gmail.com", "user1", "User One", "rotated"⟩)
    ⟨"GET", "user1", ""⟩
    (by
      intro k
      by_cases h1 : k = "user1"
      · simp [database, Store.set, h1]
      · by_cases h2 : k = "user2" <;> simp [database, Store.set, h1, h2])
    (by decide)

/-- C4. GET failure status: for every store and every `clientId`, the empty one included,
`GetClientProfile` answers 403 when `clientId` is not a key of the store or its record is
zero-valued and 200 otherwise; the status is never 404 and never 400. -/
theorem C4_get_status (db : Store) (r : Request) :
    (GetClientProfile db r).2.Code =
      (if db r.clientId = none ∨ db r.clientId = some ClientProfile.zero then 403 else 200) ∧
    (GetClientProfile db r).2.Code ≠ 404 ∧ (GetClientProfile db r).2.Code ≠ 400 := by
  cases h : db r.clientId with
  | none => simp [GetClientProfile, Store.index_of_none h, httpError]
  | some p =>
    by_cases hz : p = ClientProfile.zero <;>
      simp [GetClientProfile, Store.index_of_some h, httpError, hz]

/-- C4 on the seed store: a missing `clientId` and an unknown one are answered 403. -/
theorem C4_get_status_witness :
    (GetClientProfile database ⟨"GET", "", ""⟩).2.Code = 403 ∧
    (GetClientProfile database ⟨"GET", "nonexistent", ""⟩).2.Code = 403 :=
  ⟨(C4_get_status database ⟨"GET", "", ""⟩).1, (C4_get_status database ⟨"GET", "nonexistent", ""⟩).1⟩

/-- C5. PATCH status order: 400 when `clientId` is empty; otherwise 404 when `clientId` is
not a key of the store; otherwise 400 when the body does not decode; otherwise 200.  With
an empty or unknown `clientId` the outcome is the same for every decoder and every body,
so the body plays no part in it. -/
theorem C5_patch_status_order (decode : Decoder) (db : Store) (r : Request) :
    (UpdateClientProfile decode db r).2.Code =
      (if r.clientId = "" then 400
       else if db r.clientId = none then 404
       else if decode r.Body = none then 400
       else 200) ∧
    (r.clientId = "" ∨ db r.clientId = none →
      ∀ (decode2 : Decoder) (body2 : String),
        UpdateClientProfile decode2 db ⟨r.Method, r.clientId, body2⟩ =
          UpdateClientProfile decode db r) := by
  constructor
  · by_cases hid : r.clientId = ""
    · simp [UpdateClientProfile, hid, httpError]
    · cases h : db r.clientId with
      | none => simp [UpdateClientProfile, hid, Store.index_of_none h, httpError]
      | some p =>
        cases hd : decode r.Body with
        | none => simp [UpdateClientProfile, hid, Store.index_of_some h, hd, httpError]
        | some P => simp [UpdateClientProfile, hid, Store.index_of_some h, hd]
  · intro h decode2 body2
    by_cases hid : r.clientId = ""
    · simp [UpdateClientProfile, hid]
    · have hnone : db r.clientId = none := h.resolve_left hid
      simp [UpdateClientProfile, hid, Store.index_of_none hnone]

/-- C5 on the seed store: an unknown `clientId` with a body that does not decode is
answered 404, and `user1` with the same body 400. -/
theorem C5_patch_status_order_witness :
    (UpdateClientProfile fixtureDecode database ⟨"PATCH", "nonexistent", "invalid json"⟩).2.Code
      = 404 ∧
    (UpdateClientProfile fixtureDecode database ⟨"PATCH", "user1", "invalid json"⟩).2.Code
      = 400 :=
  ⟨(C5_patch_status_order fixtureDecode database ⟨"PATCH", "nonexistent", "invalid json"⟩).1,
   (C5_patch_status_order fixtureDecode database ⟨"PATCH", "user1", "invalid json"⟩).1⟩

/-- C6. DELETE status and effect: 400 when `clientId` is empty, otherwise 404 when it is not
a key of the store, otherwise 204; a 204 response has an empty body and no header, and the
store it leaves has no record under `clientId`. -/
theorem C6_delete_status_and_effect (db : Store) (r : Request) :
    (DeleteClientProfile db r).2.Code =
      (if r.clientId = "" then 400 else if db r.clientId = none then 404 else 204) ∧
    ((DeleteClientProfile db r).2.Code = 204 →
      (DeleteClientProfile db r).2.Body = Payload.empty ∧
      (DeleteClientProfile db r).2.Header = [] ∧
      (DeleteClientProfile db r).1 r.clientId = none) := by
  by_cases hid : r.clientId = ""
  · simp [DeleteClientProfile, hid, httpError]
  · cases h : db r.clientId with
    | none => simp [DeleteClientProfile, hid, Store.index_of_none h, httpError]
    | some p => simp [DeleteClientProfile, hid, Store.index_of_some h, Store.delete_same]

/-- C6 at `clientId=user1` on the seed store, the request of
`TestDeleteClientProfile_Success`. -/
theorem C6_delete_status_and_effect_witness :
    (DeleteClientProfile database ⟨"DELETE", "user1", ""⟩).2.Body = Payload.empty ∧
    (DeleteClientProfile database ⟨"DELETE", "user1", ""⟩).2.Header = [] ∧
    (DeleteClientProfile database ⟨"DELETE", "user1", ""⟩).1 "user1" = none :=
  (C6_delete_status_and_effect database ⟨"DELETE", "user1", ""⟩).2 (by decide)

/-- C7. Delete makes an id unknown: when the non-empty `clientId` of `r` is a key of the
store, DELETE answers 204, and on the store it leaves every request `r2` with the same
`clientId` is answered 403 by GET, 404 by PATCH (for every decoder and body) and 404 by
DELETE. -/
theorem C7_delete_then_unknown (decode : Decoder) (db : Store) (r r2 : Request)
    (hid : r.clientId ≠ "") (hkey : db r.clientId ≠ none) (hsame : r2.clientId = r.clientId) :
    (DeleteClientProfile db r).2.Code = 204 ∧
    (GetClientProfile (DeleteClientProfile db r).1 r2).2.Code = 403 ∧
    (UpdateClientProfile decode (DeleteClientProfile db r).1 r2).2.Code = 404 ∧
    (DeleteClientProfile (DeleteClientProfile db r).1 r2).2.Code = 404 := by
  obtain ⟨p, hp⟩ := Option.ne_none_iff_exists'.mp hkey
  have hdel : DeleteClientProfile db r = (db.delete r.clientId, ⟨204, [], Payload.empty⟩) := by
    simp [DeleteClientProfile, hid, Store.index_of_some hp]
  have hgone : db.delete r.clientId r2.clientId = none := by
    rw [hsame]; exact Store.delete_same db r.clientId
  have hid2 : r2.clientId ≠ "" := by rw [hsame]; exact hid
  rw [hdel]
  refine ⟨rfl, ?_, ?_, ?_⟩
  · simp [GetClientProfile, Store.index_of_none hgone, httpError]
  · simp [UpdateClientProfile, hid2, Store.index_of_none hgone, httpError]
  · simp [DeleteClientProfile, hid2, Store.index_of_none hgone, httpError]

/-- C7 on the seed store: after DELETE of `user1`, a GET, a PATCH with a well-formed body
and a second DELETE of `user1` are answered 403, 404 and 404. -/
theorem C7_delete_then_unknown_witness :
    (DeleteClientProfile database ⟨"DELETE", "user1", ""⟩).2.Code = 204 ∧
    (GetClientProfile (DeleteClientProfile database ⟨"DELETE", "user1", ""⟩).1
      ⟨"GET", "user1", ""⟩).2.Code = 403 ∧
    (UpdateClientProfile fixtureDecode (DeleteClientProfile database ⟨"DELETE", "user1", ""⟩).1
      ⟨"PATCH", "user1", bodyNameEmail⟩).2.Code = 404 ∧
    (DeleteClientProfile (DeleteClientProfile database ⟨"DELETE", "user1", ""⟩).1
      ⟨"DELETE", "user1", ""⟩).2.Code = 404 :=
  ⟨(C7_delete_then_unknown fixtureDecode database ⟨"DELETE", "user1", ""⟩ ⟨"GET", "user1", ""⟩
      (by decide) (by decide) rfl).1,
   (C7_delete_then_unknown fixtureDecode database ⟨"DELETE", "user1", ""⟩ ⟨"GET", "user1", ""⟩
      (by decide) (by decide) rfl).2.1,
   (C7_delete_then_unknown fixtureDecode database ⟨"DELETE", "user1", ""⟩
      ⟨"PATCH", "user1", bodyNameEmail⟩ (by decide) (by decide) rfl).2.2.1,
   (C7_delete_then_unknown fixtureDecode database ⟨"DELETE", "user1", ""⟩
      ⟨"DELETE", "user1", ""⟩ (by decide) (by decide) rfl).2.2.2⟩

/-- C8. PATCH response equals what was persisted: whenever `UpdateClientProfile` answers
200, `clientId` was bound to a record `old`, the body decoded to a record `P`, and for the
merged record `m` (`Email` and `Name` from `P` where non-empty, else from `old`; `Id` and
`Token` from `old`) the response body is the object with the four members `Email`, `Id`,
`Name`, `Token` of `m` while `m` is the record stored under `clientId` afterwards.  On the
seed store, with a decoder that reads the body of the scenario as name `Updated User` and
email `updated@example.com`, PATCH of `user1` answers 200 with `Email` `updated@example.com`,
`Id` `user1`, `Name` `Updated User` and `Token` `123`. -/
theorem C8_patch_response_is_persisted :
    (∀ (decode : Decoder) (db : Store) (r : Request),
      (UpdateClientProfile decode db r).2.Code = 200 →
      ∃ old P m : ClientProfile,
        db r.clientId = some old ∧ decode r.Body = some P ∧
        m = ⟨if P.Email ≠ "" then P.Email else old.Email, old.Id,
             if P.Name ≠ "" then P.Name else old.Name, old.Token⟩ ∧
        (UpdateClientProfile decode db r).2.Body =
          Payload.json [("Email", m.Email), ("Id", m.Id), ("Name", m.Name), ("Token", m.Token)] ∧
        (UpdateClientProfile decode db r).1 r.clientId = some m) ∧
    (∀ decode : Decoder,
      decode bodyNameEmail = some ⟨"updated@example.com", "", "Updated User", ""⟩ →
      (UpdateClientProfile decode database ⟨"PATCH", "user1", bodyNameEmail⟩).2.Code = 200 ∧
      (UpdateClientProfile decode database ⟨"PATCH", "user1", bodyNameEmail⟩).2.Body =
        Payload.json [("Email", "updated@example.com"), ("Id", "user1"),
          ("Name", "Updated User"), ("Token", "123")]) := by
  constructor
  · intro decode db r hok
    by_cases hid : r.clientId = ""
    · simp [UpdateClientProfile, hid, httpError] at hok
    · cases h : db r.clientId with
      | none => simp [UpdateClientProfile, hid, Store.index_of_none h, httpError] at hok
      | some old =>
        cases hd : decode r.Body with
        | none => simp [UpdateClientProfile, hid, Store.index_of_some h, hd, httpError] at hok
        | some P =>
          refine ⟨old, P, _, rfl, rfl, rfl, ?_, ?_⟩
          · by_cases hn : P.Name = "" <;> by_cases he : P.Email = "" <;>
              simp [UpdateClientProfile, hid, Store.index_of_some h, hd, encode, hn, he]
          · by_cases hn : P.Name = "" <;> by_cases he : P.Email = "" <;>
              simp [UpdateClientProfile, hid, Store.index_of_some h, hd, Store.set_same, hn, he]
  · intro decode hd
    have hseed : database "user1" = some ⟨"email1@gmail.com", "user1", "User One", "123"⟩ := by
      decide
    simp [UpdateClientProfile, Store.index_of_some hseed, hd, encode]

/-- C8 with the fixture decoder: the scenario on the seed store, and the record stored
under `user1` afterwards. -/
theorem C8_patch_response_is_persisted_witness :
    ((UpdateClientProfile fixtureDecode database ⟨"PATCH", "user1", bodyNameEmail⟩).2.Code = 200 ∧
     (UpdateClientProfile fixtureDecode database ⟨"PATCH", "user1", bodyNameEmail⟩).2.Body =
       Payload.json [("Email", "updated@example.com"), ("Id", "user1"),
         ("Name", "Updated User"), ("Token", "123")]) ∧
    ∃ m : ClientProfile,
      (UpdateClientProfile fixtureDecode database ⟨"PATCH", "user1", bodyNameEmail⟩).1 "user1" =
        some m :=
  ⟨C8_patch_response_is_persisted.2 fixtureDecode (by decide),
   match C8_patch_response_is_persisted.1 fixtureDecode database
      ⟨"PATCH", "user1", bodyNameEmail⟩ (by decide) with
   | ⟨_, _, m, _, _, _, _, hm⟩ => ⟨m, hm⟩⟩

/-- C9, as stated, fails: on the seed store the body of GET `clientId=user1` is not the
object with the three members `Email`, `Id`, `Name`; it has a member named `Token`. -/
theorem C9_get_body_shape_counterexample :
    (GetClientProfile database ⟨"GET", "user1", ""⟩).2.Body ≠
      Payload.json [("Email", "email1@gmail.com"), ("Id", "user1"), ("Name", "User One")] ∧
    ∃ members, (GetClientProfile database ⟨"GET", "user1", ""⟩).2.Body = Payload.json members ∧
      "Token" ∈ members.map Prod.fst := by
  refine ⟨by decide, _, rfl, ?_⟩
  decide

/-- C9, amended. On the seed store, GET with `clientId=user1` answers 200 with the object
of the four members `Email`, `Id`, `Name` and `Token`, in this order, where `Token` is the
empty string and not the stored `123`. -/
theorem C9_get_body_shape :
    (GetClientProfile database ⟨"GET", "user1", ""⟩).2.Code = 200 ∧
    (GetClientProfile database ⟨"GET", "user1", ""⟩).2.Body =
      Payload.json [("Email", "email1@gmail.com"), ("Id", "user1"), ("Name", "User One"),
        ("Token", "")] := by
  decide

/-- C10. Method dispatch: `handleClientProfile` is `GetClientProfile` on GET,
`UpdateClientProfile` on PATCH and `DeleteClientProfile` on DELETE; on every other method it
leaves the store as it was and answers 405, the same for every `clientId`, body and
decoder. -/
theorem C10_method_dispatch (decode : Decoder) (db : Store) (r : Request) :
    (r.Method = "GET" → handleClientProfile decode db r = GetClientProfile db r) ∧
    (r.Method = "PATCH" → handleClientProfile decode db r = UpdateClientProfile decode db r) ∧
    (r.Method = "DELETE" → handleClientProfile decode db r = DeleteClientProfile db r) ∧
    (r.Method ≠ "GET" → r.Method ≠ "PATCH" → r.Method ≠ "DELETE" →
      (handleClientProfile decode db r).1 = db ∧
      (handleClientProfile decode db r).2.Code = 405 ∧
      ∀ (decode2 : Decoder) (clientId2 body2 : String),
        handleClientProfile decode2 db ⟨r.Method, clientId2, body2⟩ =
          handleClientProfile decode db r) := by
  refine ⟨?_, ?_, ?_, ?_⟩
  · intro h
    simp [handleClientProfile, MethodGet, h]
  · intro h
    simp [handleClientProfile, MethodGet, MethodPatch, h]
  · intro h
    simp [handleClientProfile, MethodGet, MethodPatch, MethodDelete, h]
  · intro hg hp hd
    simp [handleClientProfile, MethodGet, MethodPatch, MethodDelete, hg, hp, hd, httpError]

/-- C10 on the seed store: POST with `clientId=user1` is answered 405 and keeps the store,
and GET with `clientId=user1` is answered as by `GetClientProfile`. -/
theorem C10_method_dispatch_witness :
    ((handleClientProfile fixtureDecode database ⟨"POST", "user1", ""⟩).1 = database ∧
     (handleClientProfile fixtureDecode database ⟨"POST", "user1", ""⟩).2.Code = 405) ∧
    handleClientProfile fixtureDecode database ⟨"GET", "user1", ""⟩ =
      GetClientProfile database ⟨"GET", "user1", ""⟩ :=
  ⟨⟨((C10_method_dispatch fixtureDecode database ⟨"POST", "user1", ""⟩).2.2.2
        (by decide) (by decide) (by decide)).1,
    ((C10_method_dispatch fixtureDecode database ⟨"POST", "user1", ""⟩).2.2.2
        (by decide) (by decide) (by decide)).2.1⟩,
   (C10_method_dispatch fixtureDecode database ⟨"GET", "user1", ""⟩).1 rfl⟩

/-! ## Lemmas on the effect of the handlers on the store -/

theorem GetClientProfile_store (db : Store) (r : Request) : (GetClientProfile db r).1 = db := by
  cases h : db r.clientId with
  | none => simp [GetClientProfile, Store.index_of_none h]
  | some p =>
    by_cases hz : p = ClientProfile.zero <;> simp [GetClientProfile, Store.index_of_some h, hz]

/-- Either `UpdateClientProfile` leaves the store as it was and answers 400 or 404, or
`clientId` was a key and is rebound to a record with the same `Id`, with answer 200. -/
theorem UpdateClientProfile_store (decode : Decoder) (db : Store) (r : Request) :
    ((UpdateClientProfile decode db r).1 = db ∧
      ((UpdateClientProfile decode db r).2.Code = 400 ∨
       (UpdateClientProfile decode db r).2.Code = 404)) ∨
    ∃ old m : ClientProfile, db r.clientId = some old ∧ m.Id = old.Id ∧
      (UpdateClientProfile decode db r).1 = db.set r.clientId m ∧
      (UpdateClientProfile decode db r).2.Code = 200 := by
  by_cases hid : r.clientId = ""
  · left; simp [UpdateClientProfile, hid, httpError]
  · cases h : db r.clientId with
    | none => left; simp [UpdateClientProfile, hid, Store.index_of_none h, httpError]
    | some old =>
      cases hd : decode r.Body with
      | none => left; simp [UpdateClientProfile, hid, Store.index_of_some h, hd, httpError]
      | some P =>
        right
        refine ⟨old, ⟨if P.Email ≠ "" then P.Email else old.Email, old.Id,
          if P.Name ≠ "" then P.Name else old.Name, old.Token⟩, rfl, rfl, ?_, ?_⟩
        · by_cases hn : P.Name = "" <;> by_cases he : P.Email = "" <;>
            simp [UpdateClientProfile, hid, Store.index_of_some h, hd, hn, he]
        · simp [UpdateClientProfile, hid, Store.index_of_some h, hd]

/-- Either `DeleteClientProfile` leaves the store as it was and answers 400 or 404, or
`clientId` was a key and is removed, with answer 204. -/
theorem DeleteClientProfile_store (db : Store) (r : Request) :
    ((DeleteClientProfile db r).1 = db ∧
      ((DeleteClientProfile db r).2.Code = 400 ∨ (DeleteClientProfile db r).2.Code = 404)) ∨
    (db r.clientId ≠ none ∧ (DeleteClientProfile db r).1 = db.delete r.clientId ∧
      (DeleteClientProfile db r).2.Code = 204) := by
  by_cases hid : r.clientId = ""
  · left; simp [DeleteClientProfile, hid, httpError]
  · cases h : db r.clientId with
    | none => left; simp [DeleteClientProfile, hid, Store.index_of_none h, httpError]
    | some p => right; simp [DeleteClientProfile, hid, Store.index_of_some h]

/-- The three ways in which a request can leave the store: untouched, `clientId` rebound
to a record with the `Id` of the old one, or `clientId` removed. -/
theorem handleClientProfile_store (decode : Decoder) (db : Store) (r : Request) :
    (handleClientProfile decode db r).1 = db ∨
    (∃ old m : ClientProfile, db r.clientId = some old ∧ m.Id = old.Id ∧
      (handleClientProfile decode db r).1 = db.set r.clientId m) ∨
    (db r.clientId ≠ none ∧ (handleClientProfile decode db r).1 = db.delete r.clientId) := by
  unfold handleClientProfile
  by_cases hg : r.Method = MethodGet
  · left; simp [hg, GetClientProfile_store]
  · by_cases hp : r.Method = MethodPatch
    · simp only [if_neg hg, if_pos hp]
      rcases UpdateClientProfile_store decode db r with h | ⟨old, m, h1, h2, h3, _⟩
      · exact Or.inl h.1
      · exact Or.inr (Or.inl ⟨old, m, h1, h2, h3⟩)
    · by_cases hd : r.Method = MethodDelete
      · simp only [if_neg hg, if_neg hp, if_pos hd]
        rcases DeleteClientProfile_store db r with h | ⟨h1, h2, _⟩
        · exact Or.inl h.1
        · exact Or.inr (Or.inr ⟨h1, h2⟩)
      · left; simp [hg, hp, hd]

theorem serve_cons (decode : Decoder) (db : Store) (r : Request) (rs : List Request) :
    serve decode db (r :: rs) = serve decode (handleClientProfile decode db r).1 rs := by
  simp [serve]

/-- A property of stores that holds at the start and is kept by every request holds after
every sequence of requests. -/
theorem serve_invariant (decode : Decoder) (I : Store → Prop)
    (hstep : ∀ (db : Store) (r : Request), I db → I (handleClientProfile decode db r).1)
    (rs : List Request) : ∀ db : Store, I db → I (serve decode db rs) := by
  induction rs with
  | nil => intro db h; simpa [serve] using h
  | cons r rs ih =>
    intro db h
    rw [serve_cons]
    exact ih _ (hstep db r h)

theorem KeyIdInv_database : KeyIdInv database := by
  intro k p h
  by_cases h1 : k = "user1"
  · simp [database, h1] at h; rw [h1, ← h]
  · by_cases h2 : k = "user2"
    · simp [database, h2] at h; rw [h2, ← h]
    · simp [database, h1, h2] at h

theorem KeyIdInv_step (decode : Decoder) (db : Store) (r : Request) (h : KeyIdInv db) :
    KeyIdInv (handleClientProfile decode db r).1 := by
  rcases handleClientProfile_store decode db r with e | ⟨old, m, h1, h2, e⟩ | ⟨_, e⟩
  · rw [e]; exact h
  · rw [e]
    intro k p hk
    by_cases hkx : k = r.clientId
    · simp [Store.set, hkx] at hk
      rw [hkx, ← hk, h2]
      exact h _ _ h1
    · simp [Store.set, hkx] at hk
      exact h k p hk
  · rw [e]
    intro k p hk
    by_cases hkx : k = r.clientId
    · simp [Store.delete, hkx] at hk
    · simp [Store.delete, hkx] at hk
      exact h k p hk

theorem KeysWithin_step (decode : Decoder) (db : Store) (r : Request) :
    KeysWithin (handleClientProfile decode db r).1 db := by
  rcases handleClientProfile_store decode db r with e | ⟨old, m, h1, _, e⟩ | ⟨_, e⟩
  · rw [e]; exact fun _ h => h
  · rw [e]
    intro k hk
    by_cases hkx : k = r.clientId
    · rw [hkx, h1]; simp
    · simpa [Store.set, hkx] using hk
  · rw [e]
    intro k hk
    by_cases hkx : k = r.clientId
    · simp [Store.delete, hkx] at hk
    · simpa [Store.delete, hkx] using hk

theorem KeysWithin_serve (decode : Decoder) (rs : List Request) (db : Store) :
    KeysWithin (serve decode db rs) db :=
  serve_invariant decode (fun s => KeysWithin s db)
    (fun s r hs k hk => hs k (KeysWithin_step decode s r k hk)) rs db (fun _ h => h)

theorem database_keys (k : String) (h : database k ≠ none) : k = "user1" ∨ k = "user2" := by
  by_cases h1 : k = "user1"
  · exact Or.inl h1
  · by_cases h2 : k = "user2"
    · exact Or.inr h2
    · simp [database, h1, h2] at h

theorem IdsNonEmpty_database : IdsNonEmpty database := by
  intro k p h
  have hk := KeyIdInv_database k p h
  rcases database_keys k (by rw [h]; simp) with h1 | h2
  · rw [hk, h1]; decide
  · rw [hk, h2]; decide

theorem IdsNonEmpty_step (decode : Decoder) (db : Store) (r : Request) (h : IdsNonEmpty db) :
    IdsNonEmpty (handleClientProfile decode db r).1 := by
  rcases handleClientProfile_store decode db r with e | ⟨old, m, h1, h2, e⟩ | ⟨_, e⟩
  · rw [e]; exact h
  · rw [e]
    intro k p hk
    by_cases hkx : k = r.clientId
    · simp [Store.set, hkx] at hk
      rw [← hk, h2]
      exact h _ _ h1
    · simp [Store.set, hkx] at hk
      exact h k p hk
  · rw [e]
    intro k p hk
    by_cases hkx : k = r.clientId
    · simp [Store.delete, hkx] at hk
    · simp [Store.delete, hkx] at hk
      exact h k p hk

/-! ## Claims on failures, invariants and frames -/

/-- C11. No partial success: when `handleClientProfile` answers 400, 403, 404 or 405, for
any method, `clientId`, body and decoder, the store after the request is the store before
it. -/
theorem C11_failure_keeps_store (decode : Decoder) (db : Store) (r : Request)
    (hfail : (handleClientProfile decode db r).2.Code = 400 ∨
      (handleClientProfile decode db r).2.Code = 403 ∨
      (handleClientProfile decode db r).2.Code = 404 ∨
      (handleClientProfile decode db r).2.Code = 405) :
    (handleClientProfile decode db r).1 = db := by
  unfold handleClientProfile at hfail ⊢
  by_cases hg : r.Method = MethodGet
  · simp [hg, GetClientProfile_store]
  · by_cases hp : r.Method = MethodPatch
    · simp only [if_neg hg, if_pos hp] at hfail ⊢
      rcases UpdateClientProfile_store decode db r with h | ⟨_, _, _, _, _, hc⟩
      · exact h.1
      · rw [hc] at hfail; omega
    · by_cases hd : r.Method = MethodDelete
      · simp only [if_neg hg, if_neg hp, if_pos hd] at hfail ⊢
        rcases DeleteClientProfile_store db r with h | ⟨_, _, hc⟩
        · exact h.1
        · rw [hc] at hfail; omega
      · simp [hg, hp, hd]

/-- C11 on the seed store: a PATCH of `user1` whose body does not decode is answered 400
and the store is the seed store afterwards. -/
theorem C11_failure_keeps_store_witness :
    (handleClientProfile fixtureDecode database ⟨"PATCH", "user1", "invalid json"⟩).1 =
      database :=
  C11_failure_keeps_store fixtureDecode database ⟨"PATCH", "user1", "invalid json"⟩
    (by decide)

/-- C12. Key/Id invariant: in the seed store the record keyed by `k` has `Id` equal to `k`;
every request, with any method, `clientId`, body and decoder, keeps this property of a
store; hence it holds after every finite sequence of requests from the seed store. -/
theorem C12_key_id_invariant :
    KeyIdInv database ∧
    (∀ (decode : Decoder) (db : Store) (r : Request),
      KeyIdInv db → KeyIdInv (handleClientProfile decode db r).1) ∧
    (∀ (decode : Decoder) (rs : List Request), KeyIdInv (serve decode database rs)) :=
  ⟨KeyIdInv_database, KeyIdInv_step,
   fun decode rs => serve_invariant decode KeyIdInv (KeyIdInv_step decode) rs database
     KeyIdInv_database⟩

/-- C12 after the four sample requests on the seed store. -/
theorem C12_key_id_invariant_witness :
    KeyIdInv (serve fixtureDecode database sampleRequests) :=
  C12_key_id_invariant.2.2 fixtureDecode sampleRequests

/-- C13. No creation at the boundary: a key of the store after a request, with any method,
`clientId`, body and decoder, is a key of the store before it; hence after every finite
sequence of requests from the seed store every key is `user1` or `user2`. -/
theorem C13_no_creation :
    (∀ (decode : Decoder) (db : Store) (r : Request) (k : String),
      (handleClientProfile decode db r).1 k ≠ none → db k ≠ none) ∧
    (∀ (decode : Decoder) (rs : List Request) (k : String),
      serve decode database rs k ≠ none → k = "user1" ∨ k = "user2") :=
  ⟨fun decode db r k hk => KeysWithin_step decode db r k hk,
   fun decode rs k hk => database_keys k (KeysWithin_serve decode rs database k hk)⟩

/-- C13 after the four sample requests on the seed store: `user1` is still a key, and as
a key it is one of the two seed keys. -/
theorem C13_no_creation_witness :
    serve fixtureDecode database sampleRequests "user1" ≠ none ∧
    ("user1" = "user1" ∨ "user1" = "user2") :=
  ⟨by decide, C13_no_creation.2 fixtureDecode sampleRequests "user1" (by decide)⟩

/-- C14. Content type: every 200 response of `GetClientProfile` and every 200 response of
`UpdateClientProfile`, for any store, `clientId`, body and decoder, has the header
`Content-Type` set to `application/json`. -/
theorem C14_content_type (decode : Decoder) (db : Store) (r : Request) :
    ((GetClientProfile db r).2.Code = 200 →
      (GetClientProfile db r).2.headerGet "Content-Type" = "application/json") ∧
    ((UpdateClientProfile decode db r).2.Code = 200 →
      (UpdateClientProfile decode db r).2.headerGet "Content-Type" = "application/json") := by
  constructor
  · intro hok
    cases h : db r.clientId with
    | none => simp [GetClientProfile, Store.index_of_none h, httpError] at hok
    | some p =>
      by_cases hz : p = ClientProfile.zero
      · simp [GetClientProfile, Store.index_of_some h, hz, httpError] at hok
      · simp [GetClientProfile, Store.index_of_some h, hz, Response.headerGet]
  · intro hok
    by_cases hid : r.clientId = ""
    · simp [UpdateClientProfile, hid, httpError] at hok
    · cases h : db r.clientId with
      | none => simp [UpdateClientProfile, hid, Store.index_of_none h, httpError] at hok
      | some old =>
        cases hd : decode r.Body with
        | none => simp [UpdateClientProfile, hid, Store.index_of_some h, hd, httpError] at hok
        | some P =>
          simp [UpdateClientProfile, hid, Store.index_of_some h, hd, Response.headerGet]

/-- C14 on the seed store, at the requests of `TestGetClientProfile_ContentType` and of a
PATCH of `user1`. -/
theorem C14_content_type_witness :
    (GetClientProfile database ⟨"GET", "user1", ""⟩).2.headerGet "Content-Type" =
      "application/json" ∧
    (UpdateClientProfile fixtureDecode database ⟨"PATCH", "user1", bodyNameEmail⟩).2.headerGet
      "Content-Type" = "application/json" :=
  ⟨(C14_content_type fixtureDecode database ⟨"GET", "user1", ""⟩).1 (by decide),
   (C14_content_type fixtureDecode database ⟨"PATCH", "user1", bodyNameEmail⟩).2 (by decide)⟩

/-- C15. The zero-value sentinel is dead on reachable states: after every finite sequence
of requests from the seed store no stored record is zero-valued, and `GetClientProfile`
answers 403 exactly when `clientId` is not a key of the store. -/
theorem C15_zero_sentinel_dead (decode : Decoder) (rs : List Request) :
    (∀ k : String, serve decode database rs k ≠ some ClientProfile.zero) ∧
    (∀ r : Request,
      (GetClientProfile (serve decode database rs) r).2.Code = 403 ↔
        serve decode database rs r.clientId = none) := by
  have hids : IdsNonEmpty (serve decode database rs) :=
    serve_invariant decode IdsNonEmpty (IdsNonEmpty_step decode) rs database
      IdsNonEmpty_database
  have hzero : ∀ k : String, serve decode database rs k ≠ some ClientProfile.zero :=
    fun k hk => hids k ClientProfile.zero hk rfl
  refine ⟨hzero, fun r => ?_⟩
  cases h : serve decode database rs r.clientId with
  | none => simp [GetClientProfile, Store.index_of_none h, httpError]
  | some p =>
    have hz : p ≠ ClientProfile.zero := fun hp => hzero r.clientId (by rw [h, hp])
    simp [GetClientProfile, Store.index_of_some h, hz]

/-- C15 after the four sample requests on the seed store: `user2` has been deleted, so a
GET of `user2` is answered 403. -/
theorem C15_zero_sentinel_dead_witness :
    (GetClientProfile (serve fixtureDecode database sampleRequests)
      ⟨"GET", "user2", ""⟩).2.Code = 403 :=
  ((C15_zero_sentinel_dead fixtureDecode sampleRequests).2 ⟨"GET", "user2", ""⟩).mpr
    (by decide)

/-- C16. Frame: a request with `clientId` X, of any method and body, leaves what is stored
under every key other than X as it was, present or absent; a GET request leaves the whole
store as it was. -/
theorem C16_frame (decode : Decoder) (db : Store) (r : Request) :
    (∀ k : String, k ≠ r.clientId → (handleClientProfile decode db r).1 k = db k) ∧
    (r.Method = "GET" → (handleClientProfile decode db r).1 = db) := by
  constructor
  · intro k hk
    rcases handleClientProfile_store decode db r with e | ⟨_, m, _, _, e⟩ | ⟨_, e⟩
    · rw [e]
    · rw [e]; simp [Store.set, hk]
    · rw [e]; simp [Store.delete, hk]
  · intro hg
    simp [handleClientProfile, MethodGet, hg, GetClientProfile_store]

/-- C16 on the seed store: a PATCH of `user1` leaves the record of `user2` as seeded, and
a GET leaves the seed store as it was. -/
theorem C16_frame_witness :
    (handleClientProfile fixtureDecode database ⟨"PATCH", "user1", bodyNameEmail⟩).1 "user2" =
      database "user2" ∧
    (handleClientProfile fixtureDecode database ⟨"GET", "user1", ""⟩).1 = database :=
  ⟨(C16_frame fixtureDecode database ⟨"PATCH", "user1", bodyNameEmail⟩).1 "user2" (by decide),
   (C16_frame fixtureDecode database ⟨"GET", "user1", ""⟩).2 rfl⟩

/-- C17. PATCH is idempotent: for every store, `clientId`, body and decoder, handling the
same PATCH request a second time, on the store left by the first, gives the same store and
the same response (status, headers and body) as the first. -/
theorem C17_patch_idempotent (decode : Decoder) (db : Store) (r : Request) :
    UpdateClientProfile decode (UpdateClientProfile decode db r).1 r =
      UpdateClientProfile decode db r := by
  by_cases hid : r.clientId = ""
  · simp [UpdateClientProfile, hid]
  · cases h : db r.clientId with
    | none => simp [UpdateClientProfile, hid, Store.index_of_none h]
    | some old =>
      cases hd : decode r.Body with
      | none => simp [UpdateClientProfile, hid, Store.index_of_some h, hd]
      | some P =>
        have hset : ∀ m : ClientProfile,
            (db.set r.clientId m).set r.clientId m = db.set r.clientId m := by
          intro m
          funext j
          by_cases hj : j = r.clientId <;> simp [Store.set, hj]
        have hidx : ∀ m : ClientProfile, (db.set r.clientId m).index r.clientId = (m, true) :=
          fun m => Store.index_of_some (Store.set_same db r.clientId m)
        by_cases hn : P.Name = "" <;> by_cases he : P.Email = "" <;>
          simp [UpdateClientProfile, hid, Store.index_of_some h, hd, hn, he, hidx, hset]

/-- C17 on the seed store, at the PATCH of `TestUpdateClientProfile_Success`: the record of
`user1` and the status are the same after the second PATCH as after the first. -/
theorem C17_patch_idempotent_witness :
    (UpdateClientProfile fixtureDecode
      (UpdateClientProfile fixtureDecode database ⟨"PATCH", "user1", bodyNameEmail⟩).1
      ⟨"PATCH", "user1", bodyNameEmail⟩).1 "user1" =
      some ⟨"updated@example.com", "user1", "Updated User", "123"⟩ ∧
    (UpdateClientProfile fixtureDecode
      (UpdateClientProfile fixtureDecode database ⟨"PATCH", "user1", bodyNameEmail⟩).1
      ⟨"PATCH", "user1", bodyNameEmail⟩).2.Code = 200 :=
  ⟨(congrArg (fun out => out.1 "user1")
      (C17_patch_idempotent fixtureDecode database ⟨"PATCH", "user1", bodyNameEmail⟩)).trans
      (by decide),
   (congrArg (fun out => out.2.Code)
      (C17_patch_idempotent fixtureDecode database ⟨"PATCH", "user1", bodyNameEmail⟩)).trans
      (by decide)⟩

end SimpleGoApi
